import Mathlib

/-!
Shallow embedding of the MissionLog document-generation pipeline
(`src/unnamed/part_000`): base64 codec, template resolver, two-pass
document renderer, batch export aggregator, and template deletion.

Modelling conventions:
* JavaScript `ArrayBuffer`/byte buffers are `List Nat` (byte values).
* Document archives, once opened, are represented by their substitutable
  text content as `List Char`; the external archive library (`PizZip`) is
  a parameter `zipOpen : List Nat → Option (List Char)` (`none` models a
  thrown parse error on corrupt bytes).
* Exceptions are `Except Unit` / `Option`; `Error` throws become `.error`.
* `new Date("YYYY-MM-DD")` is modelled as the day count since the epoch
  times 86400000 ms (the ECMAScript UTC interpretation of date-only
  strings); the local timezone is taken as UTC, so `setHours(23,59,59,999)`
  adds 86399999 ms.
-/

namespace MissionLog

/-! ## Data model (`src/types.ts`) -/

structure Mission where
  id : String
  title : String
  location : String
  date : String
  finishDate : Option String
  startTime : Option String
  finishTime : Option String
  notes : String
  createdAt : Nat
deriving Repr, DecidableEq

structure Template where
  id : String
  name : String
  data : String
deriving Repr, DecidableEq

structure Settings where
  activeTemplateId : String
  customTemplates : List Template
  language : String
deriving Repr, DecidableEq

structure UserProfile where
  fullName : String
  profession : String
  cni : String
  ppn : String
deriving Repr, DecidableEq

/-! ## Binary codec (`base64ToArrayBuffer`, part_000 lines 94-106) -/

/-- Characters removed by the source's `replace(/[\s\n\r]/g, '')`
(the ASCII whitespace range matched by the JavaScript `\s` class). -/
def isJsWhitespace (c : Char) : Bool :=
  c = ' ' || c = '\t' || c = '\n' || c = '\x0b' || c = '\x0c' || c = '\r'

/-- ASCII whitespace as removed by the `atob` forgiving-base64 algorithm. -/
def isAsciiWhitespace (c : Char) : Bool :=
  c = ' ' || c = '\t' || c = '\n' || c = '\x0c' || c = '\r'

/-- Membership in the base64 alphabet proper (padding `=` excluded). -/
def isB64Char (c : Char) : Bool :=
  (('A' ≤ c && c ≤ 'Z') || ('a' ≤ c && c ≤ 'z') || ('0' ≤ c && c ≤ '9')
    || c = '+' || c = '/')

/-- Six-bit value of one base64 alphabet character. -/
def b64Val (c : Char) : Nat :=
  if 'A' ≤ c && c ≤ 'Z' then c.toNat - 65
  else if 'a' ≤ c && c ≤ 'z' then c.toNat - 97 + 26
  else if '0' ≤ c && c ≤ '9' then c.toNat - 48 + 52
  else if c = '+' then 62
  else 63

/-- Bit-accumulating base64 payload decoder: consumes six bits per
character and emits a byte whenever eight bits are available. -/
def b64DecodeBits : List Char → Nat → Nat → List Nat
  | [], _, _ => []
  | c :: cs, buf, bits =>
    let buf2 := buf * 64 + b64Val c
    let bits2 := bits + 6
    if 8 ≤ bits2 then
      (buf2 / 2 ^ (bits2 - 8)) % 256 :: b64DecodeBits cs (buf2 % 2 ^ (bits2 - 8)) (bits2 - 8)
    else
      b64DecodeBits cs buf2 bits2

/-- Trailing-padding removal of forgiving-base64: when the length is a
multiple of four, up to two trailing `=` signs are dropped. -/
def dropB64Padding (l : List Char) : List Char :=
  if l.length % 4 = 0 then
    match l.reverse with
    | '=' :: '=' :: rest => rest.reverse
    | '=' :: rest => rest.reverse
    | _ => l
  else l

/-- Model of the browser built-in `window.atob` (WHATWG forgiving-base64
decode): strip ASCII whitespace, drop legal trailing padding, reject a
leftover length of 1 mod 4 or any character outside the alphabet, and
otherwise emit the decoded bytes. -/
def atob (s : String) : Except Unit (List Nat) :=
  let t := (s.data.filter (fun c => !isAsciiWhitespace c))
  let u := dropB64Padding t
  if u.length % 4 = 1 then .error ()
  else if !u.all isB64Char then .error ()
  else .ok (b64DecodeBits u 0 0)

/-- Embedding of `base64ToArrayBuffer` (part_000 lines 94-106): reject an
empty input or a raw length that is not a multiple of four, then strip the
JavaScript whitespace class and hand the rest to `atob`. -/
def base64ToArrayBuffer (s : String) : Except Unit (List Nat) :=
  if s.length = 0 || s.length % 4 != 0 then .error ()
  else atob (String.mk (s.data.filter (fun c => !isJsWhitespace c)))

/-! ## Template resolver (`getTemplateBuffer`, part_000 lines 112-141) -/

/-- Modelled from the spec: the embedded last-resort template constant
`DEFAULT_TEMPLATE_BASE64` lives in `constants.ts`, which is not among the
provided sources. The spec only requires a base64 string constant that
always decodes to a valid, non-empty archive, so a fixed well-formed
base64 literal stands in for it; its byte content is never inspected by
the properties proved here. -/
def DEFAULT_TEMPLATE_BASE64 : String :=
  "AAAAAAAAAAAAAAAAAAAAAAAAAAAAAAAAAAAAAAAAAAAAAAAAAAAAAAAAAAAAAAAA"

/-- Result of the `fetch('/default.docx')` call: `none` models a thrown
network error (or a failed body read); otherwise the response status flag,
optional content-type header and body bytes. -/
structure FetchResponse where
  ok : Bool
  contentType : Option String
  body : List Nat
deriving Repr, DecidableEq

/-- Contiguous-substring test on character lists, modelling the
JavaScript `String.prototype.includes`. -/
def hasSubstring : List Char → List Char → Bool
  | [], pat => pat.isEmpty
  | c :: cs, pat => pat.isPrefixOf (c :: cs) || hasSubstring cs pat

/-- Tier-2 acceptance test of the fetched response (part_000 lines
124-133): status ok, content type absent or not HTML, body above the
100-byte plausibility threshold. -/
def acceptFetched (r : FetchResponse) : Bool :=
  r.ok
    && (match r.contentType with
        | none => true
        | some ct => !(hasSubstring ct.data "text/html".data))
    && decide (100 < r.body.length)

/-- Embedding of `getTemplateBuffer` (part_000 lines 112-141). Tier 1: a
custom template found by id is decoded with no surrounding catch, so a
decode failure propagates as `.error`. Tier 2: the fetched default asset,
accepted only by `acceptFetched`. Tier 3: the embedded constant. -/
def getTemplateBuffer (s : Settings) (fetched : Option FetchResponse) :
    Except Unit (List Nat) :=
  match (if s.activeTemplateId ≠ "default" then
          s.customTemplates.find? (fun t => t.id == s.activeTemplateId)
         else none) with
  | some custom => base64ToArrayBuffer custom.data
  | none =>
    match fetched with
    | some r =>
      if acceptFetched r then .ok r.body
      else base64ToArrayBuffer DEFAULT_TEMPLATE_BASE64
    | none => base64ToArrayBuffer DEFAULT_TEMPLATE_BASE64

/-! ## Document renderer (`generateDocxBlob`, part_000 lines 146-229) -/

/-- Scan for the first occurrence of the closing delimiter, returning the
text before it and the remainder after it. -/
def splitAtDelim (de : Char) : List Char → Option (List Char × List Char)
  | [] => none
  | c :: cs =>
    if c = de then some ([], cs)
    else (splitAtDelim de cs).map (fun p => (c :: p.1, p.2))

/-- Modelled from the spec: one substitution pass of the external
`docxtemplater` engine over the archive's text, with the delimiter pair
and the `nullGetter` policy configured by the source (part_000 lines
196-212). A directive is the text between the opening and closing
delimiter; a key present in `fields` is replaced by its value, a missing
key resolves to the directive's raw literal text (the configured
`nullGetter` returns `part.raw`), and an unclosed directive makes the pass
fail, modelling the engine's thrown render error. -/
def renderPass (ds de : Char) (fields : List (String × String)) :
    List Char → Except Unit (List Char)
  | [] => .ok []
  | c :: cs =>
    if c = ds then
      match h : splitAtDelim de cs with
      | none => .error ()
      | some (key, rest) =>
        match renderPass ds de fields rest with
        | .error e => .error e
        | .ok tail =>
          match fields.lookup (String.mk key) with
          | some v => .ok (v.data ++ tail)
          | none => .ok (ds :: (key ++ de :: tail))
    else
      match renderPass ds de fields cs with
      | .error e => .error e
      | .ok tail => .ok (c :: tail)
termination_by l => l.length
decreasing_by
  · have hlen : ∀ l2 k2 r2 : List Char,
        splitAtDelim de l2 = some (k2, r2) → r2.length < l2.length := by
      intro l2
      induction l2 with
      | nil => intro k2 r2 hh; simp [splitAtDelim] at hh
      | cons c2 cs2 ih =>
        intro k2 r2 hh
        simp only [splitAtDelim] at hh
        by_cases hc : c2 = de
        · rw [if_pos hc] at hh
          simp at hh
          obtain ⟨h1, h2⟩ := hh
          simp [← h2]
        · rw [if_neg hc] at hh
          rcases ho : splitAtDelim de cs2 with _ | p
          · rw [ho] at hh; simp at hh
          · rw [ho] at hh
            simp at hh
            obtain ⟨h1, h2⟩ := hh
            have hlt : p.2.length < cs2.length := ih p.1 p.2 ho
            simp [← h2]
            omega
    exact Nat.lt_succ_of_lt (hlen cs key rest h)
  · simp

/-- JavaScript `a || b` on an optional string: an absent or empty value
falls through to the default. -/
def jsOrElse (a : Option String) (b : String) : String :=
  match a with
  | some s => if s = "" then b else s
  | none => b

/-- Embedding of the render-data object (part_000 lines 180-192): the flat
field mapping merged from a mission and the user profile. -/
def buildFields (m : Mission) (u : UserProfile) : List (String × String) :=
  [("title", m.title), ("location", m.location), ("date", m.date),
   ("finishDate", jsOrElse m.finishDate m.date),
   ("startTime", jsOrElse m.startTime ""),
   ("finishTime", jsOrElse m.finishTime ""),
   ("notes", m.notes), ("fullName", u.fullName),
   ("profession", u.profession), ("cni", u.cni), ("ppn", u.ppn)]

/-- The two sequential substitution passes of part_000 lines 194-217:
block directives `\x7b...\x7d` over the original document, then inline
directives `(...)` over the first pass's output; a failure in either pass
is the caught render error (the source alerts and returns `null`). -/
def renderPipeline (fields : List (String × String)) (doc : List Char) :
    Option (List Char) :=
  match renderPass '{' '}' fields doc with
  | .error _ => none
  | .ok mid =>
    match renderPass '(' ')' fields mid with
    | .error _ => none
    | .ok out => some out

/-- Embedding of `generateDocxBlob` (part_000 lines 146-229), with the
external archive library passed as `zipOpen` (`none` models `new PizZip`
throwing on corrupt bytes). A template-buffer error is caught and yields
`none`; a failed archive open is retried once on the decoded embedded
template; render errors are caught and yield `none`. -/
def generateDocxBlob (zipOpen : List Nat → Option (List Char)) (m : Mission)
    (s : Settings) (u : UserProfile) (fetched : Option FetchResponse) :
    Option (List Char) :=
  match getTemplateBuffer s fetched with
  | .error _ => none
  | .ok buf =>
    match (match zipOpen buf with
           | some z => some z
           | none =>
             match base64ToArrayBuffer DEFAULT_TEMPLATE_BASE64 with
             | .error _ => none
             | .ok fb => zipOpen fb) with
    | none => none
    | some doc => renderPipeline (buildFields m u) doc

/-! ## Dates (`new Date("YYYY-MM-DD")` as used in part_000 lines 702-711) -/

/-- Numeric value of a digit string. -/
def digitsToNat (l : List Char) : Nat :=
  l.foldl (fun a c => a * 10 + (c.toNat - 48)) 0

/-- Gregorian leap-year test. -/
def isLeapYear (y : Nat) : Bool :=
  y % 4 = 0 && (y % 100 != 0 || y % 400 = 0)

/-- Day count of a month (1-12). -/
def daysInMonth (y m : Nat) : Nat :=
  if m = 2 then (if isLeapYear y then 29 else 28)
  else if m = 4 || m = 6 || m = 9 || m = 11 then 30
  else 31

/-- Days from the civil epoch 1970-01-01 (standard era-based algorithm). -/
def daysFromCivil (y m d : Int) : Int :=
  let y1 := if m ≤ 2 then y - 1 else y
  let era := (if 0 ≤ y1 then y1 else y1 - 399) / 400
  let yoe := y1 - era * 400
  let mp := (m + 9) % 12
  let doy := (153 * mp + 2) / 5 + d - 1
  let doe := yoe * 365 + yoe / 4 - yoe / 100 + doy
  era * 146097 + doe - 719468

/-- Dash-separated fields of a character list. -/
def splitOnDash : List Char → List (List Char)
  | [] => [[]]
  | c :: cs =>
    if c = '-' then [] :: splitOnDash cs
    else
      match splitOnDash cs with
      | [] => [[c]]
      | h :: t => (c :: h) :: t

/-- Model of ECMAScript date-only string parsing: a `YYYY-MM-DD` string
with in-range month and day parses to its day number since the epoch
(interpreted at UTC midnight); anything else is an invalid date. -/
def parseDateDays (s : String) : Option Int :=
  match splitOnDash s.data with
  | [ys, ms, ds] =>
    if ys.length = 4 && ms.length = 2 && ds.length = 2
        && ys.all Char.isDigit && ms.all Char.isDigit
        && ds.all Char.isDigit then
      let y := digitsToNat ys
      let m := digitsToNat ms
      let d := digitsToNat ds
      if 1 ≤ m && m ≤ 12 && 1 ≤ d && d ≤ daysInMonth y m then
        some (daysFromCivil y m d)
      else none
    else none
  | _ => none

/-- Millisecond timestamp of a date string (UTC midnight), the value of
`new Date(s)` for a valid date-only string. -/
def parseDateMs (s : String) : Option Int :=
  (parseDateDays s).map (fun d => d * 86400000)

/-- Embedding of the range filter predicate of `performExport` (part_000
lines 702-711): `new Date(start) <= new Date(m.date)` and
`new Date(m.date) <= end` where `end` is the parsed end date moved to
23:59:59.999 (86399999 ms past midnight; local timezone taken as UTC).
Any comparison involving an invalid date is false, as with `NaN`. -/
def missionInRange (startS endS : String) (m : Mission) : Bool :=
  match parseDateMs m.date, parseDateMs startS, parseDateMs endS with
  | some md, some st, some en => decide (st ≤ md) && decide (md ≤ en + 86399999)
  | _, _, _ => false

/-! ## Batch export aggregator (`performExport`, part_000 lines 695-750) -/

/-- Entry-name sanitisation of part_000 line 724:
`mission.title.replace(/[^a-z0-9]/gi, '_').substring(0, 30)` — every
character outside `[A-Za-z0-9]` is replaced by an underscore and the
result is truncated to 30 characters. -/
def safeName (title : String) : String :=
  String.mk (((title.data.map (fun c =>
    if c.isAlpha || c.isDigit then c else '_'))).take 30)

/-- Archive entry name of part_000 line 725. -/
def exportFileName (m : Mission) : String :=
  m.date ++ "_" ++ safeName m.title ++ ".docx"

/-- Model of `zip.file(name, content)` on the master archive: an existing
entry of the same name is overwritten, otherwise the entry is appended. -/
def zipFile (z : List (String × List Char)) (n : String) (c : List Char) :
    List (String × List Char) :=
  if z.any (fun e => e.1 == n) then
    z.map (fun e => if e.1 == n then (n, c) else e)
  else z ++ [(n, c)]

/-- The aggregation loop of part_000 lines 720-729: each mission is
rendered in order; a successful render is filed under its export name,
a failed one (null blob) is skipped. -/
def buildArchive (gen : Mission → Option (List Char)) :
    List Mission → List (String × List Char) → List (String × List Char)
  | [], z => z
  | m :: ms, z =>
    match gen m with
    | some doc => buildArchive gen ms (zipFile z (exportFileName m) doc)
    | none => buildArchive gen ms z

/-- Outcome of one batch export call: the empty-selection report, the
no-output report, or the assembled archive with its download name. -/
inductive ExportResult where
  | emptySelection
  | noOutput
  | archive (files : List (String × List Char)) (downloadName : String)
deriving Repr, DecidableEq

/-- Embedding of `performExport` (part_000 lines 695-750), with the
per-mission renderer `gen` standing for the awaited `generateDocxBlob`
call (which never throws; `none` is a reported per-item failure). -/
def performExport (gen : Mission → Option (List Char))
    (missions : List Mission) (startS endS : String) : ExportResult :=
  let missionsInRange := missions.filter (missionInRange startS endS)
  if missionsInRange.length = 0 then .emptySelection
  else
    let files := buildArchive gen missionsInRange []
    if missionsInRange.countP (fun m => (gen m).isSome) = 0 then .noOutput
    else .archive files ("Reports_" ++ startS ++ "_to_" ++ endS ++ ".zip")

/-! ## Template deletion (`deleteTemplate`, part_000 lines 431-437) -/

/-- Embedding of `deleteTemplate` (part_000 lines 431-437): the template
with the given id is removed from the list, and the active selection is
reset to `"default"` exactly when it pointed at the deleted id. -/
def deleteTemplate (s : Settings) (id : String) : Settings :=
  { s with
    customTemplates := s.customTemplates.filter (fun t => t.id != id),
    activeTemplateId :=
      if s.activeTemplateId = id then "default" else s.activeTemplateId }

/-! ## Spec-side comparison definitions and fixtures -/

/-- Written from the spec's words for comparison with the source's
`safeName` (refinement check of the naming claim): a sanitiser that
strips — removes — the characters outside `[A-Za-z0-9]` and then
truncates to 30 characters. -/
def stripSanitize (t : String) : String :=
  String.mk ((t.data.filter (fun c => c.isAlpha || c.isDigit)).take 30)

/-- Declarative failure condition of the base64 decoder: raw-input gates
(empty, length not a multiple of four) or, after whitespace stripping and
legal-padding removal, a leftover length of 1 mod 4 or a character outside
the base64 alphabet. -/
def b64Fails (s : String) : Prop :=
  s = "" ∨ s.length % 4 ≠ 0 ∨
    (dropB64Padding (s.data.filter (fun c => !isJsWhitespace c))).length % 4 = 1 ∨
    ¬((dropB64Padding (s.data.filter (fun c => !isJsWhitespace c))).all isB64Char = true)

/-- The configuration invariant of the data model: the active selection
is `"default"` or the id of a template present in the custom list. -/
def activeTemplateValid (s : Settings) : Prop :=
  s.activeTemplateId = "default" ∨
    ∃ t ∈ s.customTemplates, t.id = s.activeTemplateId

/-- Fixture for the aggregator range test: five missions dated
2024-01-01 through 2024-01-05. -/
def sampleMissions : List Mission :=
  [⟨"m1", "A", "L", "2024-01-01", none, none, none, "", 0⟩,
   ⟨"m2", "B", "L", "2024-01-02", none, none, none, "", 0⟩,
   ⟨"m3", "C", "L", "2024-01-03", none, none, none, "", 0⟩,
   ⟨"m4", "D", "L", "2024-01-04", none, none, none, "", 0⟩,
   ⟨"m5", "E", "L", "2024-01-05", none, none, none, "", 0⟩]

/-! ## Theorems -/

/-- C1: the Template Resolver is claimed never to raise, falling through
to tier 2/3 when the active custom template's base64 data is malformed.
The source's tier 1 (part_000 line 117) returns `base64ToArrayBuffer
(custom.data)` with no surrounding catch, so the decode error propagates
out of `getTemplateBuffer` instead of falling through — contradicting the
function's own doc comment ("guaranteed to return valid buffer ... to
prevent crashes"). At the configuration whose active custom template
carries the malformed data `"abc"`, resolution reports the error. -/
theorem c1_resolver_raises_on_malformed_custom :
    getTemplateBuffer ⟨"c1", [⟨"c1", "Custom", "abc"⟩], "en"⟩ none =
      .error ()
    ∧ getTemplateBuffer ⟨"missing", [⟨"c1", "Custom", "abc"⟩], "en"⟩ none =
      .ok (List.replicate 48 0) := by
  exact ⟨rfl, by rfl⟩

/-- C4 counterexample: the input `"AAAAA   "` is non-empty, has raw
length a multiple of four, and after whitespace stripping contains only
base64 alphabet characters, so the claim's "exactly when" condition says
decoding succeeds; the code nevertheless fails, because the stripped
string has length 5 ≡ 1 (mod 4), which `atob` rejects. -/
theorem c4_counterexample :
    base64ToArrayBuffer "AAAAA   " = .error ()
    ∧ "AAAAA   " ≠ ""
    ∧ "AAAAA   ".length % 4 = 0
    ∧ ("AAAAA   ".data.filter (fun c => !isJsWhitespace c)).all isB64Char
        = true := by
  refine ⟨rfl, by decide, by decide, by decide⟩

theorem asciiWs_implies_jsWs {c : Char} :
    isAsciiWhitespace c = true → isJsWhitespace c = true := by
  intro h
  simp only [isAsciiWhitespace, Bool.or_eq_true, decide_eq_true_eq] at h
  simp only [isJsWhitespace, Bool.or_eq_true, decide_eq_true_eq]
  tauto

theorem filter_ascii_after_js (l : List Char) :
    (l.filter (fun c => !isJsWhitespace c)).filter
        (fun c => !isAsciiWhitespace c) =
      l.filter (fun c => !isJsWhitespace c) := by
  apply List.filter_eq_self.mpr
  intro a ha
  have hjs : (!isJsWhitespace a) = true := (List.mem_filter.mp ha).2
  by_cases hasc : isAsciiWhitespace a = true
  · rw [asciiWs_implies_jsWs hasc] at hjs
    exact absurd hjs (by simp)
  · simp [hasc]

/-- C4 (amended): the decoder fails exactly when the input is empty, its
raw length is not a multiple of four, or — after stripping whitespace and
removing legal trailing padding — the remaining string has length 1 mod 4
or contains a character outside the base64 alphabet; on every other input
it succeeds with the decoded bytes. -/
theorem c4_decoder_failure_characterisation (s : String) :
    base64ToArrayBuffer s = .error () ↔ b64Fails s := by
  by_cases h1 : s = ""
  · subst h1
    simp [base64ToArrayBuffer, b64Fails]
  · by_cases h2 : s.length % 4 = 0
    · have hsl : ¬s.length = 0 := by
        intro hz
        exact h1 (String.ext (List.length_eq_zero.mp hz))
      have hred : base64ToArrayBuffer s =
          atob (String.mk (s.data.filter (fun c => !isJsWhitespace c))) := by
        simp [base64ToArrayBuffer, hsl, h2]
      rw [hred]
      unfold atob
      simp only [String.data]
      rw [filter_ascii_after_js]
      unfold b64Fails
      by_cases h3 :
          (dropB64Padding (s.data.filter (fun c => !isJsWhitespace c))).length
            % 4 = 1
      · simp [h3, h1]
      · by_cases h4 :
            (dropB64Padding
              (s.data.filter (fun c => !isJsWhitespace c))).all isB64Char
              = true
        · simp [h3, h4, h1, h2]
        · simp [h3, h4, h1, h2]
    · have : base64ToArrayBuffer s = .error () := by
        simp [base64ToArrayBuffer, h2]
      simp [this, b64Fails, h2]

/-- C4 witness: the valid padded block `"TWFu"` decodes to the bytes of
`"Man"`, and the characterisation confirms it does not fail. -/
theorem c4_decoder_failure_characterisation_witness :
    ¬b64Fails "TWFu" ∧ base64ToArrayBuffer "TWFu" = .ok [77, 97, 110] := by
  constructor
  · intro hf
    have := (c4_decoder_failure_characterisation "TWFu").mpr hf
    rw [show base64ToArrayBuffer "TWFu" = .ok [77, 97, 110] from rfl] at this
    exact absurd this (by simp)
  · rfl

/-- C9: deleting the active template resets the selection to
`"default"`; deleting any other template leaves the selection unchanged;
and the validity invariant (selection is `"default"` or a present id) is
preserved by every delete. -/
theorem c9_delete_template_resets_active (s : Settings) (id : String) :
    (deleteTemplate s s.activeTemplateId).activeTemplateId = "default"
    ∧ (id ≠ s.activeTemplateId →
        (deleteTemplate s id).activeTemplateId = s.activeTemplateId)
    ∧ (activeTemplateValid s → activeTemplateValid (deleteTemplate s id)) := by
  refine ⟨by simp [deleteTemplate], ?_, ?_⟩
  · intro hne
    simp [deleteTemplate]
    intro heq
    exact absurd heq.symm hne
  · intro hval
    rcases hval with hdef | ⟨t, ht, hid⟩
    · by_cases hcase : s.activeTemplateId = id
      · exact Or.inl (by simp [deleteTemplate, hcase])
      · exact Or.inl (by simp [deleteTemplate, hcase, hdef])
    · by_cases hcase : s.activeTemplateId = id
      · exact Or.inl (by simp [deleteTemplate, hcase])
      · refine Or.inr ⟨t, ?_, ?_⟩
        · simp [deleteTemplate, List.mem_filter]
          refine ⟨ht, ?_⟩
          rw [hid]
          simpa using hcase
        · simp [deleteTemplate, hcase, hid]

/-- C9 witness: deleting the inactive template `"b"` from a two-template
configuration keeps the active selection `"a"` and the invariant. -/
theorem c9_delete_template_resets_active_witness :
    (deleteTemplate ⟨"a", [⟨"a", "n1", "AAAA"⟩, ⟨"b", "n2", "BBBB"⟩], "en"⟩
        "b").activeTemplateId = "a"
    ∧ activeTemplateValid
        (deleteTemplate ⟨"a", [⟨"a", "n1", "AAAA"⟩, ⟨"b", "n2", "BBBB"⟩], "en"⟩
          "b") := by
  refine ⟨?_, ?_⟩
  · exact (c9_delete_template_resets_active
      ⟨"a", [⟨"a", "n1", "AAAA"⟩, ⟨"b", "n2", "BBBB"⟩], "en"⟩ "b").2.1
      (by decide)
  · exact (c9_delete_template_resets_active
      ⟨"a", [⟨"a", "n1", "AAAA"⟩, ⟨"b", "n2", "BBBB"⟩], "en"⟩ "b").2.2
      (Or.inr ⟨⟨"a", "n1", "AAAA"⟩, by decide, rfl⟩)

/-- C5: a mission is selected by the batch-export filter exactly when it
is in the list and its date lies in the inclusive day range
`[start, end]` — the 86399999 ms end-of-day shift makes the end boundary
inclusive — and on the five-mission fixture with range 2024-01-02 to
2024-01-04 exactly three missions are selected. -/
theorem c5_range_selection (missions : List Mission) (startS endS : String)
    (m : Mission) (md sd ed : Int)
    (hm : parseDateDays m.date = some md)
    (hs : parseDateDays startS = some sd)
    (he : parseDateDays endS = some ed) :
    (m ∈ missions.filter (missionInRange startS endS) ↔
      m ∈ missions ∧ sd ≤ md ∧ md ≤ ed)
    ∧ (sampleMissions.filter
        (missionInRange "2024-01-02" "2024-01-04")).length = 3 := by
  constructor
  · rw [List.mem_filter]
    have hp : missionInRange startS endS m = true ↔ (sd ≤ md ∧ md ≤ ed) := by
      simp only [missionInRange, parseDateMs, hm, hs, he, Option.map_some',
        Bool.and_eq_true, decide_eq_true_eq]
      omega
    rw [hp]
  · decide

/-- C5 witness: the general selection criterion applied to the first
fixture mission (dated 2024-01-01, day 19723, before the range start day
19724) shows it is not selected, and the fixture count is three. -/
theorem c5_range_selection_witness :
    (⟨"m1", "A", "L", "2024-01-01", none, none, none, "", 0⟩ ∈
        sampleMissions.filter (missionInRange "2024-01-02" "2024-01-04") ↔
      ⟨"m1", "A", "L", "2024-01-01", none, none, none, "", 0⟩ ∈
          sampleMissions ∧ (19724 : Int) ≤ 19723 ∧ (19723 : Int) ≤ 19726)
    ∧ (sampleMissions.filter
        (missionInRange "2024-01-02" "2024-01-04")).length = 3 :=
  c5_range_selection sampleMissions "2024-01-02" "2024-01-04"
    ⟨"m1", "A", "L", "2024-01-01", none, none, none, "", 0⟩
    19723 19724 19726 (by rfl) (by rfl) (by rfl)

/-- C10: batch-export membership is decided solely by the `date` field —
the filter result is unchanged under any other field, and a mission dated
before the range start is excluded even when its `finishDate` lies inside
the range. -/
theorem c10_selection_solely_by_date (missions : List Mission)
    (startS endS : String) (m : Mission) (md sd ed fd : Int)
    (hm : parseDateDays m.date = some md)
    (hs : parseDateDays startS = some sd)
    (he : parseDateDays endS = some ed)
    (hfin : m.finishDate.bind parseDateDays = some fd)
    (hf1 : sd ≤ fd) (hf2 : fd ≤ ed)
    (hbefore : md < sd) :
    m ∉ missions.filter (missionInRange startS endS)
    ∧ ∀ m2 : Mission, m2.date = m.date →
        missionInRange startS endS m2 = missionInRange startS endS m := by
  constructor
  · intro hmem
    have hp := (List.mem_filter.mp hmem).2
    simp only [missionInRange, parseDateMs, hm, hs, he, Option.map_some',
      Bool.and_eq_true, decide_eq_true_eq] at hp
    omega
  · intro m2 hdate
    unfold missionInRange
    rw [hdate]

/-- C10 witness: a mission dated 2024-01-01 whose finish date 2024-01-03
lies inside the range 2024-01-02..2024-01-04 is still excluded. -/
theorem c10_selection_solely_by_date_witness :
    (⟨"x", "T", "L", "2024-01-01", some "2024-01-03", none, none, "", 0⟩ :
        Mission) ∉
      [(⟨"x", "T", "L", "2024-01-01", some "2024-01-03", none, none, "", 0⟩ :
        Mission)].filter (missionInRange "2024-01-02" "2024-01-04") :=
  (c10_selection_solely_by_date
    [⟨"x", "T", "L", "2024-01-01", some "2024-01-03", none, none, "", 0⟩]
    "2024-01-02" "2024-01-04"
    ⟨"x", "T", "L", "2024-01-01", some "2024-01-03", none, none, "", 0⟩
    19723 19724 19726 19725 (by rfl) (by rfl) (by rfl) (by rfl)
    (by decide) (by decide) (by decide)).1

theorem mem_zipFile_keys (z : List (String × List Char)) (n k : String)
    (c : List Char) :
    k ∈ (zipFile z n c).map Prod.fst ↔ k ∈ z.map Prod.fst ∨ k = n := by
  unfold zipFile
  by_cases hany : z.any (fun e => e.1 == n) = true
  · have hnmem : n ∈ z.map Prod.fst := by
      obtain ⟨e, he, hbeq⟩ := List.any_eq_true.mp hany
      exact List.mem_map.mpr ⟨e, he, by simpa using hbeq⟩
    rw [if_pos hany]
    have hkeys : (z.map (fun e => if e.1 == n then (n, c) else e)).map Prod.fst
        = z.map Prod.fst := by
      rw [List.map_map]
      apply List.map_congr_left
      intro e _
      by_cases hh : e.1 = n
      · simp [hh]
      · simp [hh]
    rw [hkeys]
    constructor
    · exact Or.inl
    · rintro (h | rfl)
      · exact h
      · exact hnmem
  · rw [if_neg hany]
    simp

theorem nodup_zipFile_keys (z : List (String × List Char)) (n : String)
    (c : List Char) (h : (z.map Prod.fst).Nodup) :
    ((zipFile z n c).map Prod.fst).Nodup := by
  unfold zipFile
  by_cases hany : z.any (fun e => e.1 == n) = true
  · rw [if_pos hany]
    have hkeys : (z.map (fun e => if e.1 == n then (n, c) else e)).map Prod.fst
        = z.map Prod.fst := by
      rw [List.map_map]
      apply List.map_congr_left
      intro e _
      by_cases hh : e.1 = n
      · simp [hh]
      · simp [hh]
    rw [hkeys]
    exact h
  · rw [if_neg hany]
    have hn : n ∉ z.map Prod.fst := by
      intro hmem
      obtain ⟨e, he, hfst⟩ := List.mem_map.mp hmem
      exact hany (List.any_eq_true.mpr ⟨e, he, by simp [hfst]⟩)
    simp [List.nodup_append, h, hn]

theorem mem_buildArchive_keys (gen : Mission → Option (List Char)) :
    ∀ (ms : List Mission) (z : List (String × List Char)) (k : String),
      k ∈ (buildArchive gen ms z).map Prod.fst ↔
        k ∈ z.map Prod.fst ∨
          ∃ m ∈ ms, (gen m).isSome ∧ exportFileName m = k := by
  intro ms
  induction ms with
  | nil => intro z k; simp [buildArchive]
  | cons m ms ih =>
    intro z k
    cases hg : gen m with
    | none =>
      simp only [buildArchive, hg]
      rw [ih]
      constructor
      · rintro (hz | ⟨m2, hm2, hs2, he2⟩)
        · exact Or.inl hz
        · exact Or.inr ⟨m2, List.mem_cons_of_mem _ hm2, hs2, he2⟩
      · rintro (hz | ⟨m2, hm2, hs2, he2⟩)
        · exact Or.inl hz
        · rcases List.mem_cons.mp hm2 with rfl | hm2b
          · rw [hg] at hs2; simp at hs2
          · exact Or.inr ⟨m2, hm2b, hs2, he2⟩
    | some doc =>
      simp only [buildArchive, hg]
      rw [ih, mem_zipFile_keys]
      constructor
      · rintro ((hz | rfl) | ⟨m2, hm2, hs2, he2⟩)
        · exact Or.inl hz
        · exact Or.inr ⟨m, List.mem_cons_self _ _, by simp [hg], rfl⟩
        · exact Or.inr ⟨m2, List.mem_cons_of_mem _ hm2, hs2, he2⟩
      · rintro (hz | ⟨m2, hm2, hs2, he2⟩)
        · exact Or.inl (Or.inl hz)
        · rcases List.mem_cons.mp hm2 with rfl | hm2b
          · exact Or.inl (Or.inr he2.symm)
          · exact Or.inr ⟨m2, hm2b, hs2, he2⟩

theorem nodup_buildArchive_keys (gen : Mission → Option (List Char)) :
    ∀ (ms : List Mission) (z : List (String × List Char)),
      (z.map Prod.fst).Nodup → ((buildArchive gen ms z).map Prod.fst).Nodup := by
  intro ms
  induction ms with
  | nil => intro z h; simpa [buildArchive]
  | cons m ms ih =>
    intro z h
    cases hg : gen m with
    | none => simp only [buildArchive, hg]; exact ih z h
    | some doc =>
      simp only [buildArchive, hg]
      exact ih _ (nodup_zipFile_keys _ _ _ h)

theorem performExport_archive_of_success (gen : Mission → Option (List Char))
    (missions : List Mission) (startS endS : String) (m0 : Mission)
    (hm0 : m0 ∈ missions.filter (missionInRange startS endS))
    (hs0 : (gen m0).isSome) :
    performExport gen missions startS endS =
      .archive
        (buildArchive gen (missions.filter (missionInRange startS endS)) [])
        ("Reports_" ++ startS ++ "_to_" ++ endS ++ ".zip") := by
  have hlen : ¬(missions.filter (missionInRange startS endS)).length = 0 := by
    intro h0
    rw [List.length_eq_zero.mp h0] at hm0
    simp at hm0
  have hcnt : ¬(missions.filter (missionInRange startS endS)).countP
      (fun m => (gen m).isSome) = 0 := by
    intro h0
    have := List.countP_eq_zero.mp h0 m0 hm0
    simp [hs0] at this
  simp [performExport, hlen, hcnt]

/-- C2 (amended): an empty filtered selection yields the empty-selection
report and no archive; a non-empty selection in which every render fails
yields the no-output report; and with at least one success the call
succeeds with an archive whose entry names are distinct and are exactly
the export names of the successfully rendered missions (same-named
successes overwrite one another, so there is one entry per distinct name
rather than one per success). -/
theorem c2_batch_export_outcomes (gen : Mission → Option (List Char))
    (missions : List Mission) (startS endS : String) :
    (missions.filter (missionInRange startS endS) = [] →
      performExport gen missions startS endS = .emptySelection)
    ∧ (missions.filter (missionInRange startS endS) ≠ [] →
        (∀ m ∈ missions.filter (missionInRange startS endS), gen m = none) →
        performExport gen missions startS endS = .noOutput)
    ∧ (∀ m0 ∈ missions.filter (missionInRange startS endS),
        (gen m0).isSome →
        performExport gen missions startS endS =
          .archive
            (buildArchive gen (missions.filter (missionInRange startS endS)) [])
            ("Reports_" ++ startS ++ "_to_" ++ endS ++ ".zip")
        ∧ ((buildArchive gen
            (missions.filter (missionInRange startS endS)) []).map
              Prod.fst).Nodup
        ∧ ∀ n, n ∈ (buildArchive gen
              (missions.filter (missionInRange startS endS)) []).map Prod.fst
            ↔ ∃ m ∈ missions.filter (missionInRange startS endS),
                (gen m).isSome ∧ exportFileName m = n) := by
  refine ⟨?_, ?_, ?_⟩
  · intro h
    simp [performExport, h]
  · intro hne hall
    have hlen : ¬(missions.filter (missionInRange startS endS)).length = 0 := by
      intro h0
      exact hne (List.length_eq_zero.mp h0)
    have hcnt : (missions.filter (missionInRange startS endS)).countP
        (fun m => (gen m).isSome) = 0 := by
      apply List.countP_eq_zero.mpr
      intro a ha
      simp [hall a ha]
    simp [performExport, hlen, hcnt]
  · intro m0 hm0 hs0
    refine ⟨performExport_archive_of_success gen missions startS endS m0 hm0 hs0,
      nodup_buildArchive_keys gen _ [] (by simp), ?_⟩
    intro n
    rw [mem_buildArchive_keys]
    simp

/-- C2 counterexample: two successfully rendered missions sharing the
same date and title produce an archive with a single entry, not one entry
per successful render — the second success overwrites the first's entry. -/
theorem c2_counterexample :
    performExport (fun _ => some ['d'])
        [⟨"1", "Report", "L", "2024-01-01", none, none, none, "", 0⟩,
         ⟨"2", "Report", "L", "2024-01-01", none, none, none, "", 0⟩]
        "2024-01-01" "2024-01-01"
      = .archive [("2024-01-01_Report.docx", ['d'])]
          "Reports_2024-01-01_to_2024-01-01.zip"
    ∧ (([⟨"1", "Report", "L", "2024-01-01", none, none, none, "", 0⟩,
         ⟨"2", "Report", "L", "2024-01-01", none, none, none, "", 0⟩] :
          List Mission).filter
          (missionInRange "2024-01-01" "2024-01-01")).countP
        (fun m => ((fun _ => some ['d']) m).isSome) = 2 := by
  exact ⟨rfl, rfl⟩

/-- C2 witness: an empty mission list reports the empty selection, an
all-successful fixture export returns the assembled archive, and an
all-failing fixture export reports no output. -/
theorem c2_batch_export_outcomes_witness :
    performExport (fun _ => some ['d']) [] "2024-01-02" "2024-01-04"
      = .emptySelection
    ∧ performExport (fun _ => some ['d']) sampleMissions "2024-01-02"
        "2024-01-04"
      = .archive
          (buildArchive (fun _ => some ['d'])
            (sampleMissions.filter (missionInRange "2024-01-02" "2024-01-04"))
            [])
          "Reports_2024-01-02_to_2024-01-04.zip"
    ∧ performExport (fun _ => none) sampleMissions "2024-01-02" "2024-01-04"
      = .noOutput := by
  refine ⟨?_, ?_, ?_⟩
  · exact (c2_batch_export_outcomes (fun _ => some ['d']) [] "2024-01-02"
      "2024-01-04").1 rfl
  · exact ((c2_batch_export_outcomes (fun _ => some ['d']) sampleMissions
      "2024-01-02" "2024-01-04").2.2
      ⟨"m2", "B", "L", "2024-01-02", none, none, none, "", 0⟩
      (by decide) (by decide)).1
  · exact (c2_batch_export_outcomes (fun _ => none) sampleMissions
      "2024-01-02" "2024-01-04").2.1 (by decide) (fun m _ => rfl)

/-- C3 (amended): a successful mission's document is filed in the output
archive under `{date}_{sanitizedTitle}.docx`, where the sanitised title
replaces — rather than strips — every character outside `[A-Za-z0-9]`
with an underscore and truncates to at most 30 characters. -/
theorem c3_entry_naming (gen : Mission → Option (List Char))
    (missions : List Mission) (startS endS : String) (m : Mission)
    (hmem : m ∈ missions.filter (missionInRange startS endS))
    (hsucc : (gen m).isSome) :
    performExport gen missions startS endS =
      .archive
        (buildArchive gen (missions.filter (missionInRange startS endS)) [])
        ("Reports_" ++ startS ++ "_to_" ++ endS ++ ".zip")
    ∧ exportFileName m ∈
        (buildArchive gen (missions.filter (missionInRange startS endS))
          []).map Prod.fst
    ∧ exportFileName m =
        m.date ++ "_" ++ String.mk ((m.title.data.map (fun c =>
          if c.isAlpha || c.isDigit then c else '_')).take 30) ++ ".docx"
    ∧ (safeName m.title).length ≤ 30 := by
  refine ⟨performExport_archive_of_success gen missions startS endS m hmem hsucc,
    ?_, rfl, ?_⟩
  · rw [mem_buildArchive_keys]
    exact Or.inr ⟨m, hmem, hsucc, rfl⟩
  · have : (safeName m.title).length =
        ((m.title.data.map (fun c =>
          if c.isAlpha || c.isDigit then c else '_')).take 30).length := rfl
    rw [this]
    exact List.length_take_le 30 _

/-- C3 counterexample: the mission title `"a b"` is filed as
`2024-01-01_a_b.docx` — the space is replaced by an underscore — whereas
the claim's strip-semantics would give `2024-01-01_ab.docx`. -/
theorem c3_counterexample :
    performExport (fun _ => some ['d'])
        [⟨"1", "a b", "L", "2024-01-01", none, none, none, "", 0⟩]
        "2024-01-01" "2024-01-01"
      = .archive [("2024-01-01_a_b.docx", ['d'])]
          "Reports_2024-01-01_to_2024-01-01.zip"
    ∧ stripSanitize "a b" = "ab"
    ∧ ("2024-01-01_a_b.docx" : String) ≠
        "2024-01-01_" ++ stripSanitize "a b" ++ ".docx" := by
  refine ⟨rfl, rfl, by decide⟩

/-- C3 witness: a successful render of the title `"a b"` is filed under
the underscore-sanitised name. -/
theorem c3_entry_naming_witness :
    exportFileName ⟨"1", "a b", "L", "2024-01-01", none, none, none, "", 0⟩ ∈
      (buildArchive (fun _ => some ['d'])
        ([(⟨"1", "a b", "L", "2024-01-01", none, none, none, "", 0⟩ :
            Mission)].filter (missionInRange "2024-01-01" "2024-01-01"))
        []).map Prod.fst :=
  (c3_entry_naming (fun _ => some ['d'])
    [⟨"1", "a b", "L", "2024-01-01", none, none, none, "", 0⟩]
    "2024-01-01" "2024-01-01"
    ⟨"1", "a b", "L", "2024-01-01", none, none, none, "", 0⟩
    (by decide) (by decide)).2.1

theorem splitAtDelim_append (de : Char) (key rest : List Char)
    (hde : de ∉ key) :
    splitAtDelim de (key ++ de :: rest) = some (key, rest) := by
  induction key with
  | nil => simp [splitAtDelim]
  | cons c cs ih =>
    have hc : ¬c = de := by
      intro h
      exact hde (h ▸ List.mem_cons_self _ _)
    have hde2 : de ∉ cs := fun h => hde (List.mem_cons_of_mem _ h)
    simp [splitAtDelim, hc, ih hde2]

/-- C6: a substitution directive whose key is absent from the fields
mapping renders as the directive's raw literal text — the delimiters and
key are reproduced verbatim in the output, not replaced by the empty
string, and the pass does not fail on it (it fails only if the remainder
does). -/
theorem c6_missing_key_renders_literal (ds de : Char)
    (fields : List (String × String)) (key rest : List Char)
    (hde : de ∉ key)
    (hmiss : fields.lookup (String.mk key) = none) :
    renderPass ds de fields (ds :: (key ++ de :: rest)) =
      (renderPass ds de fields rest).map
        (fun tail => ds :: (key ++ de :: tail)) := by
  have hsplit := splitAtDelim_append de key rest hde
  rw [renderPass]
  rw [if_pos rfl]
  split
  · next heq =>
    rw [hsplit] at heq
    exact absurd heq (by simp)
  · next key1 rest1 heq =>
    rw [hsplit] at heq
    have hkr : key = key1 ∧ rest = rest1 := by
      have := Option.some.inj heq
      exact ⟨congrArg Prod.fst this, congrArg Prod.snd this⟩
    obtain ⟨hk, hrr⟩ := hkr
    subst hk
    subst hrr
    rcases hr : renderPass ds de fields rest with e | tail <;>
      simp [hr, hmiss, Except.map]

/-- C6 witness: with a mapping lacking the key `name`, the inline
directive `(name)` renders as the literal text `(name)x` on the template
`(name)x`. -/
theorem c6_missing_key_renders_literal_witness :
    renderPass '(' ')' [("title", "T")]
        ('(' :: ("name".data ++ ')' :: "x".data)) =
      .ok ('(' :: ("name".data ++ ')' :: "x".data)) := by
  rw [c6_missing_key_renders_literal '(' ')' [("title", "T")] "name".data
    "x".data (by decide) (by rfl)]
  rw [show renderPass '(' ')' [("title", "T")] "x".data = .ok "x".data by
    simp [renderPass]]
  rfl

/-- C7: when the resolved template buffer opens as a valid archive, the
generation performs exactly two sequential substitution passes over the
same fields mapping — block directives delimited by braces over the
original document, then inline directives delimited by parentheses over
the first pass's output. -/
theorem c7_two_pass_rendering (zipOpen : List Nat → Option (List Char))
    (m : Mission) (s : Settings) (u : UserProfile)
    (fetched : Option FetchResponse) (buf : List Nat) (doc : List Char)
    (hbuf : getTemplateBuffer s fetched = .ok buf)
    (hopen : zipOpen buf = some doc) :
    generateDocxBlob zipOpen m s u fetched =
      (match renderPass '{' '}' (buildFields m u) doc with
       | .error _ => none
       | .ok mid =>
         match renderPass '(' ')' (buildFields m u) mid with
         | .error _ => none
         | .ok out => some out) := by
  unfold generateDocxBlob
  rw [hbuf]
  simp only [hopen]
  rfl

/-- C7 witness: a delimiter-free one-character document passes through
both passes unchanged. -/
theorem c7_two_pass_rendering_witness :
    generateDocxBlob (fun _ => some ['x'])
        ⟨"1", "T", "L", "2024-01-01", none, none, none, "", 0⟩
        ⟨"default", [], "en"⟩ ⟨"F", "P", "C", "N"⟩
        (some ⟨true, none, List.replicate 101 0⟩) = some ['x'] := by
  rw [c7_two_pass_rendering (fun _ => some ['x'])
    ⟨"1", "T", "L", "2024-01-01", none, none, none, "", 0⟩
    ⟨"default", [], "en"⟩ ⟨"F", "P", "C", "N"⟩
    (some ⟨true, none, List.replicate 101 0⟩)
    (List.replicate 101 0) ['x'] (by rfl) rfl]
  simp [renderPass]

/-- C8: when the resolved template bytes fail to open as an archive, the
generation retries the whole render on the decoded embedded last-resort
template; the raw parse failure is never the outcome — the result is the
embedded template's render, or the caught-error `none` if the embedded
bytes also fail to open. -/
theorem c8_corrupt_template_retries_embedded
    (zipOpen : List Nat → Option (List Char)) (m : Mission) (s : Settings)
    (u : UserProfile) (fetched : Option FetchResponse) (buf fb : List Nat)
    (hbuf : getTemplateBuffer s fetched = .ok buf)
    (hopen : zipOpen buf = none)
    (hfb : base64ToArrayBuffer DEFAULT_TEMPLATE_BASE64 = .ok fb) :
    generateDocxBlob zipOpen m s u fetched =
      (match zipOpen fb with
       | none => none
       | some doc => renderPipeline (buildFields m u) doc) := by
  unfold generateDocxBlob
  rw [hbuf]
  simp only [hopen, hfb]

/-- C8 witness: a zip opener that rejects the fetched 101-byte buffer but
accepts the 48-byte decoded embedded template renders the embedded
document. -/
theorem c8_corrupt_template_retries_embedded_witness :
    generateDocxBlob (fun b => if b.length = 48 then some ['x'] else none)
        ⟨"1", "T", "L", "2024-01-01", none, none, none, "", 0⟩
        ⟨"default", [], "en"⟩ ⟨"F", "P", "C", "N"⟩
        (some ⟨true, none, List.replicate 101 0⟩) = some ['x'] := by
  rw [c8_corrupt_template_retries_embedded
    (fun b => if b.length = 48 then some ['x'] else none)
    ⟨"1", "T", "L", "2024-01-01", none, none, none, "", 0⟩
    ⟨"default", [], "en"⟩ ⟨"F", "P", "C", "N"⟩
    (some ⟨true, none, List.replicate 101 0⟩)
    (List.replicate 101 0) (List.replicate 48 0) (by rfl) (by rfl) (by rfl)]
  simp [renderPipeline, renderPass]

end MissionLog
